import Mathlib

/-!
Shallow embedding of the BCFW proposal-governance backend
(src/backend: app/services.py, blockchain/multisig_contract.py,
blockchain/web3_manager.py, ai_module/model_loader.py, main.py,
config.py, database/models.py).

Conventions:
* Python floats are modelled as `ℚ`; all threshold and score arithmetic
  in the source is on small decimal constants, so rational arithmetic
  mirrors the comparisons exactly.
* Timestamps (`datetime`) are modelled as `ℚ` seconds; `b - a` is the
  `total_seconds()` of the Python timedelta.
* Fallible Python code (try/raise with `db.rollback()`) is modelled as
  functions returning the unchanged state together with `Except`;
  a committed run returns the mutated state with `.ok`.
* The external chain (`Web3Manager.send_reward`) is modelled by an
  oracle `transferOk : String → String → ℚ → Bool` deciding whether a
  given transfer (from-role, to-role, amount) succeeds on the chain.
-/

namespace BCFW

/-- Roles that own an account, from `config.py` `GANACHE_CONFIG.accounts`.
The source keys some maps by the derived address; the role → address
derivation (distinct HD indices) is injective, so we key by role. -/
def accountRoles : List String :=
  ["manager_0", "manager_1", "manager_2", "treasury",
   "operator_0", "operator_1", "operator_2", "operator_3", "operator_4", "operator_5"]

/-- `main.py` valid manager roles; also
`MultiSigContract.is_authorized_signer`. -/
def validManagers : List String := ["manager_0", "manager_1", "manager_2"]

/-- `MultiSigContract.is_authorized_creator`. -/
def authorizedCreators : List String :=
  ["operator_0", "operator_1", "operator_2", "operator_3", "operator_4",
   "manager_0", "manager_1", "manager_2"]

/-- `config.py` `INCENTIVE_CONFIG.proposal_reward` = 0.01 ETH. -/
def proposal_reward : ℚ := 1 / 100

/-- `config.py` `THREAT_THRESHOLDS.high_confidence`. -/
def high_confidence : ℚ := 9 / 10

/-- `config.py` `THREAT_THRESHOLDS.medium_high`. -/
def medium_high : ℚ := 8 / 10

/-- `config.py` `THREAT_THRESHOLDS.medium_low`. -/
def medium_low : ℚ := 7 / 10

/-- `ThreatDetectionModel._determine_response_level` (model_loader.py):
the response level is computed from the confidence alone, with strict
`>` comparisons against the configured breakpoints. -/
def determine_response_level (confidence : ℚ) : String :=
  if confidence > high_confidence then "automatic_response"
  else if confidence > medium_high then "auto_create_proposal"
  else if confidence > medium_low then "manual_decision_alert"
  else "silent_logging"

/-- The spec calls the lowest tier `log_only`; the source string for
that tier is `"silent_logging"`. -/
def log_only : String := "silent_logging"

/-- A classifier verdict as produced by
`ThreatDetectionModel.predict_threat`. -/
structure Verdict where
  predicted_class : String
  confidence : ℚ
deriving DecidableEq, Repr

/-- The response level attached to a verdict by
`ThreatDetectionModel.predict_threat` (model_loader.py line 658):
`response_level = self._determine_response_level(confidence)` — the
predicted class is not consulted. -/
def predict_threat_response_level (v : Verdict) : String :=
  determine_response_level v.confidence

/-! ## Contribution tracking (`MultiSigContract`) -/

/-- One entry of `MultiSigContract.contributions`.
`last_signature_time` is `none` for the JSON `null` / absent record. -/
structure Contribution where
  total_signatures : Nat
  total_response_time : ℚ
  quality_score : Int
  last_signature_time : Option ℚ
deriving DecidableEq, Repr

/-- The default record used by `get_contribution` /
`_update_contribution` when a manager has no entry yet. -/
def defaultContribution : Contribution :=
  { total_signatures := 0
    total_response_time := 0
    quality_score := 0
    last_signature_time := none }

/-- Insertion-ordered association map, mirroring a Python dict. -/
abbrev ContribMap := List (String × Contribution)

/-- Dict lookup (keys are unique). -/
def ContribMap.get : ContribMap → String → Option Contribution
  | [], _ => none
  | p :: t, r => if p.1 = r then some p.2 else ContribMap.get t r

/-- Dict assignment: overwrite the existing key or append a new one. -/
def ContribMap.set (m : ContribMap) (r : String) (c : Contribution) : ContribMap :=
  if ContribMap.get m r = none then
    m ++ [(r, c)]
  else
    m.map (fun p => if p.1 = r then (r, c) else p)

/-- `MultiSigContract._calculate_quality_score`.
`lastSignatureTime = none` models the `except:` branch where the stored
string does not parse (first-ever signature); `qualNow` is the
`datetime.now()` taken inside this function. -/
def calculate_quality_score (responseTimeSeconds : ℚ)
    (lastSignatureTime : Option ℚ) (qualNow : ℚ) : Int :=
  let speed_score : Int :=
    if responseTimeSeconds ≤ 10 then 60
    else if responseTimeSeconds ≤ 30 then 50
    else if responseTimeSeconds ≤ 60 then 40
    else if responseTimeSeconds ≤ 120 then 30
    else if responseTimeSeconds ≤ 300 then 20
    else 10
  let activity_score : Int :=
    match lastSignatureTime with
    | some t =>
      let minutes_since_last := (qualNow - t) / 60
      if minutes_since_last ≤ 10 then 40
      else if minutes_since_last ≤ 30 then 30
      else if minutes_since_last ≤ 60 then 20
      else 10
    | none => 40
  speed_score + activity_score

/-- `MultiSigContract._update_contribution`. `sigNow` is the
`datetime.now()` taken in `_update_contribution` itself; `qualNow` the
one taken later inside `_calculate_quality_score` (microseconds apart
at runtime). Note the source assigns
`contribution["last_signature_time"] = current_time.isoformat()`
*before* computing the quality score and passes that just-updated
timestamp into `_calculate_quality_score`. -/
def update_contribution (contribs : ContribMap) (managerRole : String)
    (proposalCreatedAt sigNow qualNow : ℚ) : ContribMap :=
  if managerRole ∈ accountRoles then
    let c0 := (contribs.get managerRole).getD defaultContribution
    let response_time_seconds := sigNow - proposalCreatedAt
    let c1 : Contribution :=
      { total_signatures := c0.total_signatures + 1
        total_response_time := c0.total_response_time + response_time_seconds
        last_signature_time := some sigNow
        quality_score :=
          calculate_quality_score response_time_seconds (some sigNow) qualNow }
    contribs.set managerRole c1
  else
    contribs

/-! ## External chain oracle (`Web3Manager.send_reward`) -/

/-- Outcome oracle for raw chain transfers: given from-role, to-role and
amount, whether the transaction confirms. -/
abbrev TransferOracle := String → String → ℚ → Bool

/-- `Web3Manager.send_reward`: looks up both roles in `accounts` (an
unknown role raises a `KeyError` that the function catches, reporting
failure) and otherwise succeeds iff the chain transfer confirms. -/
def send_reward (transferOk : TransferOracle)
    (fromRole toRole : String) (amount : ℚ) : Bool :=
  if fromRole ∈ accountRoles ∧ toRole ∈ accountRoles then
    transferOk fromRole toRole amount
  else
    false

/-! ## Contract-level proposals (`MultiSigContract`) -/

/-- `config.threshold` from `assets/multisig_contract.json` (default
configuration in `_load_config`). -/
def contractThreshold : Nat := 2

/-- One entry of `MultiSigContract.proposals`. `signatures` is a Python
set that only ever grows by `add` of unseen roles, modelled as a
duplicate-free list in insertion order. -/
structure MSProposal where
  id : Nat
  target_role : String
  amount : ℚ
  dataHex : String
  executed : Bool
  signature_count : Nat
  signatures : List String
  creator_role : Option String
  created_at : ℚ
deriving DecidableEq, Repr

/-- In-memory state of a `MultiSigContract` instance. -/
structure ContractState where
  proposals : List MSProposal
  proposal_counter : Nat
  reward_pool_balance : ℚ
  contributions : ContribMap
deriving DecidableEq, Repr

def findMSProposal : List MSProposal → Nat → Option MSProposal
  | [], _ => none
  | p :: t, pid => if p.id = pid then some p else findMSProposal t pid

def setMSProposal (ps : List MSProposal) (pid : Nat) (p : MSProposal) :
    List MSProposal :=
  ps.map (fun q => if q.id = pid then p else q)

/-- Error cases of `MultiSigContract.sign_proposal` /
`MultiSigContract.create_proposal`; each corresponds to one `raise
ValueError(...)` that the method catches and returns as
`success = False` with the raised message. -/
inductive MSError where
  | notAuthorizedCreator
  | notAuthorizedSigner
  | proposalNotFound
  | alreadyExecuted
  | unknownSignerRole
  | notAnOwner
  | alreadySigned
deriving DecidableEq, Repr

/-- Whether the message of this error contains the substring
`"not authorized"` that `ProposalService.sign_proposal` tests for
(messages: `"Role R is not authorized to sign proposals"` and
`"R is not an authorized signer"`). -/
def MSError.mentionsNotAuthorized : MSError → Bool
  | .notAuthorizedSigner => true
  | .notAnOwner => true
  | _ => false

/-- Success payload of `MultiSigContract.sign_proposal`. The source
sets `result["executed"] = True` whenever the threshold was reached,
even when the inner reward transfer of `_execute_proposal` failed; the
transfer outcome lives in `execution_result["success"]`. -/
structure MSSignOk where
  signature_count : Nat
  executed : Bool
  executionSuccess : Bool
deriving DecidableEq, Repr

/-- `MultiSigContract.create_proposal` combined with its wrapper
`Web3Manager.create_multisig_proposal` resolving `target_role` to an
address first. Returns the new proposal id. -/
def ms_create_proposal (cst : ContractState) (targetRole : String)
    (amount : ℚ) (dataHex : String) (creatorRole : Option String)
    (now : ℚ) : ContractState × Except MSError Nat :=
  if targetRole ∉ accountRoles then (cst, .error .unknownSignerRole)
  else if creatorRole.any (fun r => !authorizedCreators.contains r) then
    (cst, .error .notAuthorizedCreator)
  else
    let pid := cst.proposal_counter
    let p : MSProposal :=
      { id := pid
        target_role := targetRole
        amount := amount
        dataHex := dataHex
        executed := false
        signature_count := 0
        signatures := []
        creator_role := creatorRole
        created_at := now }
    ({ cst with
        proposals := cst.proposals ++ [p]
        proposal_counter := cst.proposal_counter + 1 }, .ok pid)

/-- `MultiSigContract.sign_proposal`. `sigNow` and `qualNow` are the
two `datetime.now()` calls reaching `_update_contribution` and
`_calculate_quality_score`. On threshold, `_execute_proposal` sends the
proposal amount from treasury to the signer who crossed the threshold;
only a confirmed transfer marks the contract proposal executed. -/
def ms_sign_proposal (cst : ContractState) (pid : Nat)
    (signerRole : String) (sigNow qualNow : ℚ)
    (transferOk : TransferOracle) : ContractState × Except MSError MSSignOk :=
  if signerRole ∉ validManagers then
    (cst, .error .notAuthorizedSigner)
  else
    match findMSProposal cst.proposals pid with
    | none => (cst, .error .proposalNotFound)
    | some p =>
      if p.executed then (cst, .error .alreadyExecuted)
      else if signerRole ∉ accountRoles then
        (cst, .error .unknownSignerRole)
      else if signerRole ∉ validManagers then
        -- owners check: the configured owners are exactly the addresses
        -- of manager_0, manager_1, manager_2
        (cst, .error .notAnOwner)
      else if signerRole ∈ p.signatures then
        (cst, .error .alreadySigned)
      else
        let p1 := { p with
          signatures := p.signatures ++ [signerRole]
          signature_count := p.signature_count + 1 }
        let contribs1 :=
          update_contribution cst.contributions signerRole p.created_at sigNow qualNow
        if p1.signature_count ≥ contractThreshold then
          if send_reward transferOk "treasury" signerRole p.amount then
            let p2 := { p1 with executed := true }
            ({ cst with
                proposals := setMSProposal cst.proposals pid p2
                contributions := contribs1 },
             .ok { signature_count := p1.signature_count
                   executed := true
                   executionSuccess := true })
          else
            ({ cst with
                proposals := setMSProposal cst.proposals pid p1
                contributions := contribs1 },
             .ok { signature_count := p1.signature_count
                   executed := true
                   executionSuccess := false })
        else
          ({ cst with
              proposals := setMSProposal cst.proposals pid p1
              contributions := contribs1 },
           .ok { signature_count := p1.signature_count
                 executed := false
                 executionSuccess := false })

/-! ## Reward distribution -/

/-- One element of the `distributions` result list. -/
structure DistEntry where
  manager_role : String
  reward_amount : ℚ
  contribution_score : ℚ
deriving DecidableEq, Repr

/-- Result of a distribution run (`success` false models the error
return / the raised-and-caught `ValueError`). -/
structure DistOutcome where
  success : Bool
  distributions : List DistEntry
  total_distributed : ℚ
deriving DecidableEq, Repr

/-- The score entry contributed by one manager role in
`MultiSigContract.distribute_contribution_rewards`: present in
`manager_scores` iff the role has a contribution record, with
`score = total_signatures + quality_score / 100`. -/
def contractScoreEntry (r : String) : Option Contribution → List (String × ℚ)
  | some c => [(r, (c.total_signatures : ℚ) + (c.quality_score : ℚ) / 100)]
  | none => []

/-- The `manager_scores` dict of
`MultiSigContract.distribute_contribution_rewards`, in the fixed
iteration order of `roles`. -/
def contract_manager_scores (contribs : ContribMap) :
    List String → List (String × ℚ)
  | [] => []
  | r :: roles =>
    contractScoreEntry r (contribs.get r) ++ contract_manager_scores contribs roles

/-- The distribution loop of
`MultiSigContract.distribute_contribution_rewards`: walks
`manager_scores` in order threading the running pool balance; a
confirmed transfer appends its entry and debits the pool, anything else
leaves both alone and continues with the next manager. `available` and
`total` were computed before the loop and are not re-read from the
mutated pool. -/
def contractDistLoop (available total : ℚ) (transferOk : TransferOracle) :
    List (String × ℚ) → ℚ → ℚ × List DistEntry
  | [], bal => (bal, [])
  | p :: t, bal =>
    if p.2 > 0 then
      let reward_amount := available * p.2 / total
      if reward_amount > 1 / 1000 then
        if send_reward transferOk "treasury" p.1 reward_amount then
          let rest := contractDistLoop available total transferOk t (bal - reward_amount)
          (rest.1,
           { manager_role := p.1
             reward_amount := reward_amount
             contribution_score := p.2 } :: rest.2)
        else contractDistLoop available total transferOk t bal
      else contractDistLoop available total transferOk t bal
    else contractDistLoop available total transferOk t bal

/-- `MultiSigContract.distribute_contribution_rewards`.
Keeps 0.1 ETH back (`available_rewards = max 0 (balance - 0.1)`), pays
`available * score / total` per manager, skips amounts not above the
0.001 minimum, and debits the pool inside the loop only when the
individual transfer confirmed. -/
def distribute_contribution_rewards (cst : ContractState)
    (transferOk : TransferOracle) : ContractState × DistOutcome :=
  if cst.reward_pool_balance ≤ 1 / 10 then
    (cst, { success := false, distributions := [], total_distributed := 0 })
  else
    let manager_scores := contract_manager_scores cst.contributions validManagers
    let total := (manager_scores.map Prod.snd).sum
    if total = 0 then
      (cst, { success := true, distributions := [], total_distributed := 0 })
    else
      let available := max 0 (cst.reward_pool_balance - 1 / 10)
      let res := contractDistLoop available total transferOk manager_scores
        cst.reward_pool_balance
      ({ cst with reward_pool_balance := res.1 },
       { success := true
         distributions := res.2
         total_distributed := (res.2.map (fun d => d.reward_amount)).sum })

/-- `RewardPoolService._calculate_contribution_score`:
`min(100, total_signatures * 10) * 0.5 + quality_score * 0.5`. -/
def calculate_contribution_score (total_signatures : Nat)
    (quality_score : Int) : ℚ :=
  min 100 ((total_signatures : ℚ) * 10) * (1 / 2) + (quality_score : ℚ) * (1 / 2)

/-- The eligible managers of
`RewardPoolService._auto_distribute_on_execution`: the manager roles
whose contract contribution record (default zero record when absent,
as in `get_contribution`) has `total_signatures > 0`, paired with
their `_calculate_contribution_score`, in the iteration order of
`roles`. -/
def auto_eligible_managers (contribs : ContribMap) :
    List String → List (String × ℚ)
  | [] => []
  | r :: roles =>
    let c := (ContribMap.get contribs r).getD defaultContribution
    if c.total_signatures > 0 then
      (r, calculate_contribution_score c.total_signatures c.quality_score)
        :: auto_eligible_managers contribs roles
    else
      auto_eligible_managers contribs roles

/-- The transfer loop of
`RewardPoolService._auto_distribute_on_execution`: pays
`(score / total) * 1` per eligible manager in order, collecting the
entries whose amount exceeds 0.001 and whose transfer confirmed; the
pool is not touched inside this loop. -/
def autoDistLoop (total : ℚ) (transferOk : TransferOracle) :
    List (String × ℚ) → List DistEntry
  | [] => []
  | p :: t =>
    let reward_amount := p.2 / total * 1
    if reward_amount > 1 / 1000 then
      if send_reward transferOk "treasury" p.1 reward_amount then
        { manager_role := p.1
          reward_amount := reward_amount
          contribution_score := p.2 } :: autoDistLoop total transferOk t
      else autoDistLoop total transferOk t
    else autoDistLoop total transferOk t

/-- `RewardPoolService._auto_distribute_on_execution`: distributes a
fixed 1 ETH in proportion `score / totalScore`, skipping rewards not
above 0.001 and managers whose transfer failed, then debits the pool by
the sum of the successful amounts (the pool balance is only read and
written after the transfer loop). Requires at least 1 ETH in the pool.
When no manager is eligible it is a successful no-op. -/
def auto_distribute_on_execution (cst : ContractState)
    (transferOk : TransferOracle) : ContractState × DistOutcome :=
  let eligible := auto_eligible_managers cst.contributions validManagers
  let total := (eligible.map Prod.snd).sum
  if total = 0 then
    (cst, { success := true, distributions := [], total_distributed := 0 })
  else if cst.reward_pool_balance < 1 then
    (cst, { success := false, distributions := [], total_distributed := 0 })
  else
    let distributions := autoDistLoop total transferOk eligible
    let total_distributed := (distributions.map (fun d => d.reward_amount)).sum
    ({ cst with reward_pool_balance := cst.reward_pool_balance - total_distributed },
     { success := true
       distributions := distributions
       total_distributed := total_distributed })

/-- Python `str.startswith`, on the character list of the string. -/
def pyStartsWith (s pre : String) : Bool :=
  pre.data.isPrefixOf s.data

/-! ## Database-level proposals and `ProposalService` -/

/-- The `Proposal` row of `database/models.py` (the fields the service
layer reads or writes). `creator_role` is the `operator_role` handed to
`create_manual_proposal` (recorded only at the contract layer in the
source — there is no creator column in the DB schema); it is carried
here so that claims about the creator can be stated, and no service
operation reads it. `withdrawn_by` is the instance attribute set by
`withdraw_proposal`. -/
structure Proposal where
  id : Nat
  threat_type : String
  confidence : ℚ
  proposal_type : String
  status : String
  target_ip : String
  action_type : String
  signatures_required : Nat
  signatures_count : Nat
  signed_by : List String
  reward_paid : Bool
  reward_recipient : Option String
  contract_proposal_id : Option Nat
  created_at : ℚ
  approved_at : Option ℚ
  executed_at : Option ℚ
  withdrawn_by : Option String
  creator_role : Option String
deriving DecidableEq, Repr

/-- Committed database state plus the in-memory
`MultiSigContract` singleton state. -/
structure SystemState where
  proposals : List Proposal
  contract : ContractState
deriving DecidableEq, Repr

def findProposal : List Proposal → Nat → Option Proposal
  | [], _ => none
  | p :: t, pid => if p.id = pid then some p else findProposal t pid

def setProposal (ps : List Proposal) (pid : Nat) (p : Proposal) :
    List Proposal :=
  ps.map (fun q => if q.id = pid then p else q)

/-- The status of proposal `pid` in state `st`. -/
def proposalStatus (st : SystemState) (pid : Nat) : Option String :=
  (findProposal st.proposals pid).map (fun p => p.status)

/-- The signature list of proposal `pid` in state `st`. -/
def proposalSignedBy (st : SystemState) (pid : Nat) : Option (List String) :=
  (findProposal st.proposals pid).map (fun p => p.signed_by)

/-- Times and chain oracle threaded through a service call. `now` is
the wall clock of the call (the ticks of the several `datetime.now()`
invocations collapse to it), except that `qualNow` keeps the separate
`datetime.now()` taken inside `_calculate_quality_score`. -/
structure Env where
  now : ℚ
  qualNow : ℚ
  transferOk : TransferOracle

/-- The `raise ValueError(...)` cases of `ProposalService.sign_proposal`
(the first three are its own checks; the last is the re-raise when the
contract sign failure message mentions `"not authorized"`). -/
inductive SignError where
  | proposalNotFound
  | statusNotPending (status : String)
  | alreadySigned
  | notAuthorizedOnContract
deriving DecidableEq, Repr

/-- Success results of `ProposalService.sign_proposal`. -/
inductive SignOk where
  /-- Below threshold: `status: "signed"` with the number of further
  signatures still needed and whether a contract signature happened. -/
  | signed (remaining : Nat) (multisigSigned : Bool)
  /-- Threshold reached: `status: "approved_and_executed"`, with
  whether the base reward transfer confirmed and whether the automatic
  contribution distribution paid anyone. -/
  | approvedAndExecuted (reward_paid : Bool) (auto_distributed : Bool)
deriving DecidableEq, Repr

/-- `ProposalService._execute_approved_proposal` followed by the
caller's status update, given the proposal with the new signature
already appended (`p1`). The reward transfer failure is only logged:
the proposal still gets `executed_at`/`approved_at` set and status
`"approved"`, and the call still reports `approved_and_executed`. The
`RewardPoolService._auto_distribute_on_execution` call is wrapped in
try/except in the source, so its outcome never aborts the commit. -/
def execute_approved_proposal (contract : ContractState) (p1 : Proposal)
    (finalSigner : String) (env : Env) :
    ContractState × Proposal × SignOk :=
  let rewardOk := send_reward env.transferOk "treasury" finalSigner proposal_reward
  let p2 := { p1 with
    reward_paid := rewardOk
    reward_recipient := if rewardOk then some finalSigner else p1.reward_recipient
    executed_at := some env.now
    status := "approved"
    approved_at := some env.now }
  let ad := auto_distribute_on_execution contract env.transferOk
  (ad.1, p2,
   .approvedAndExecuted rewardOk (ad.2.success && !ad.2.distributions.isEmpty))

/-- Lines 292-315 of services.py: append the signature, check the
threshold, execute on approval, commit. `msSigned = some b` records
whether a contract signature was attempted and succeeded. -/
def sign_append (st : SystemState) (pid : Nat) (p : Proposal)
    (contract : ContractState) (msSigned : Option Bool)
    (managerRole : String) (env : Env) :
    SystemState × Except SignError SignOk :=
  let signed_by1 := p.signed_by ++ [managerRole]
  let p1 := { p with
    signed_by := signed_by1
    signatures_count := signed_by1.length }
  if p1.signatures_count ≥ p1.signatures_required then
    let ex := execute_approved_proposal contract p1 managerRole env
    ({ proposals := setProposal st.proposals pid ex.2.1
       contract := ex.1 }, .ok ex.2.2)
  else
    ({ proposals := setProposal st.proposals pid p1
       contract := contract },
     .ok (.signed (p1.signatures_required - p1.signatures_count)
            (msSigned.getD false)))

/-- `ProposalService.sign_proposal`. An error leaves the committed
state unchanged (`db.rollback()`); the contract sub-call happens only
when the proposal carries a `contract_proposal_id`, and only a contract
failure whose message mentions `"not authorized"` aborts the service
call — other contract failures are logged and the service continues
with the legacy signature bookkeeping (`sign_append`). -/
def sign_proposal (st : SystemState) (pid : Nat) (managerRole : String)
    (env : Env) : SystemState × Except SignError SignOk :=
  match findProposal st.proposals pid with
  | none => (st, .error .proposalNotFound)
  | some p =>
    if p.status ≠ "pending" then
      (st, .error (.statusNotPending p.status))
    else if managerRole ∈ p.signed_by then
      (st, .error .alreadySigned)
    else
      let msStep : ContractState × Option (Except MSError MSSignOk) :=
        match p.contract_proposal_id with
        | some cid =>
          let r := ms_sign_proposal st.contract cid managerRole env.now env.qualNow env.transferOk
          (r.1, some r.2)
        | none => (st.contract, none)
      match msStep.2 with
      | some (.error e) =>
        if e.mentionsNotAuthorized then
          ({ st with contract := msStep.1 }, .error .notAuthorizedOnContract)
        else
          sign_append st pid p msStep.1 (msStep.2.map Except.isOk) managerRole env
      | _ =>
        sign_append st pid p msStep.1 (msStep.2.map Except.isOk) managerRole env

/-- The `raise ValueError(...)` cases of
`ProposalService.withdraw_proposal`. -/
inductive WithdrawError where
  | proposalNotFound
  | statusNotPending (status : String)
  | notAnOperator
deriving DecidableEq, Repr

/-- `ProposalService.withdraw_proposal`: looks the proposal up, requires
status `"pending"`, requires the requester role to be non-empty and to
start with `"operator_"` — the proposal creator is never consulted —
then commits status `"withdrawn"`. -/
def withdraw_proposal (st : SystemState) (pid : Nat)
    (operatorRole : String) : SystemState × Except WithdrawError Unit :=
  match findProposal st.proposals pid with
  | none => (st, .error .proposalNotFound)
  | some p =>
    if p.status ≠ "pending" then
      (st, .error (.statusNotPending p.status))
    else if operatorRole = "" ∨ ¬ pyStartsWith operatorRole "operator_" then
      (st, .error .notAnOperator)
    else
      let p1 := { p with status := "withdrawn", withdrawn_by := some operatorRole }
      ({ st with proposals := setProposal st.proposals pid p1 }, .ok ())

/-! ## HTTP endpoints (`main.py`) and proposal-creation paths -/

/-- The methods defined on `class ProposalService` in
`app/services.py`. -/
def proposalServiceMethods : List String :=
  ["create_manual_proposal", "sign_proposal", "_execute_approved_proposal",
   "get_pending_proposals", "get_proposal_history", "withdraw_proposal"]

inductive HttpError where
  | badRequest (detail : String)
  | internalError (detail : String)
deriving DecidableEq, Repr

/-- The `reject_proposal` endpoint of `main.py` (POST
`/api/proposals/.../reject`). After the `manager_role` checks it
evaluates `proposal_service.reject_proposal(db, proposal_id,
manager_role)`; `class ProposalService` defines no attribute
`reject_proposal` (see `proposalServiceMethods`), so that attribute
access raises `AttributeError`, which the endpoint's generic
`except Exception` handler converts to an HTTP 500 — before any
proposal is read or mutated. -/
def reject_proposal_endpoint (st : SystemState) (_pid : Nat)
    (managerRole : Option String) : SystemState × Except HttpError Unit :=
  match managerRole with
  | none => (st, .error (.badRequest "manager_role is required"))
  | some r =>
    if ¬ validManagers.contains r then
      (st, .error (.badRequest "invalid manager role"))
    else if proposalServiceMethods.contains "reject_proposal" then
      (st, .ok ())
    else
      (st, .error (.internalError "AttributeError: ProposalService has no attribute reject_proposal"))

/-- Parameter names accepted by `Web3Manager.create_multisig_proposal`
(besides `self`): `def create_multisig_proposal(self, target_role: str,
amount_eth: float, data: str = "0x")`. -/
def create_multisig_proposal_params : List String :=
  ["target_role", "amount_eth", "data"]

/-- Keyword arguments passed to `create_multisig_proposal` by
`ThreatDetectionService._create_auto_proposal` (services.py 160-165). -/
def auto_proposal_call_kwargs : List String :=
  ["target_role", "amount_eth", "data", "creator_role"]

/-- Keyword arguments passed to `create_multisig_proposal` by
`ProposalService.create_manual_proposal` (services.py 224-229). -/
def manual_proposal_call_kwargs : List String :=
  ["target_role", "amount_eth", "data", "creator_role"]

/-- Python call semantics: a call raises `TypeError` ("got an
unexpected keyword argument") iff some passed keyword is not among the
callee's parameter names. -/
def callRaisesTypeError (params kwargs : List String) : Bool :=
  kwargs.any (fun k => ¬ params.contains k)

/-- The detection-log fields `create_manual_proposal` copies into the
new proposal. -/
structure DetectionInfo where
  threat_type : String
  confidence : ℚ
  target_ip : String
deriving DecidableEq, Repr

inductive CreateError where
  | invalidRoleFormat
  | detectionNotFound
  | typeError
deriving DecidableEq, Repr

/-- `ThreatDetectionService._create_auto_proposal` as invoked from
`simulate_attack`: the new proposal row is added and flushed, then
`web3_manager.create_multisig_proposal` is called with
`auto_proposal_call_kwargs`. The unexpected `creator_role` keyword
raises `TypeError`, which propagates to `simulate_attack`, whose
handler calls `db.rollback()` and re-raises — so the flushed proposal
is never committed. The else-branch spells out the run that would
follow were the keywords accepted. -/
def create_auto_proposal (st : SystemState) (det : DetectionInfo)
    (nextId : Nat) (env : Env) : SystemState × Except CreateError Nat :=
  let p : Proposal :=
    { id := nextId
      threat_type := det.threat_type
      confidence := det.confidence
      proposal_type := "auto"
      status := "pending"
      target_ip := det.target_ip
      action_type := "block"
      signatures_required := 2
      signatures_count := 0
      signed_by := []
      reward_paid := false
      reward_recipient := none
      contract_proposal_id := none
      created_at := env.now
      approved_at := none
      executed_at := none
      withdrawn_by := none
      creator_role := none }
  if callRaisesTypeError create_multisig_proposal_params auto_proposal_call_kwargs then
    (st, .error .typeError)
  else
    let ms := ms_create_proposal st.contract "manager_0" proposal_reward "0x"
      (some "system") env.now
    let p1 := match ms.2 with
      | .ok cid => { p with contract_proposal_id := some cid }
      | .error _ => p
    ({ proposals := st.proposals ++ [p1], contract := ms.1 }, .ok nextId)

/-- `ProposalService.create_manual_proposal`: validates the role
format, looks the detection up, adds the proposal row, and — when an
operator role was supplied — calls `create_multisig_proposal` with
`manual_proposal_call_kwargs`, whose unexpected `creator_role` keyword
raises `TypeError`; the service's own handler rolls the transaction
back and re-raises, so nothing is committed. Without a role the
contract layer is skipped and the proposal commits with
`contract_proposal_id = None`. -/
def create_manual_proposal (st : SystemState) (det : Option DetectionInfo)
    (operatorRole : Option String) (nextId : Nat) (env : Env) :
    SystemState × Except CreateError Nat :=
  if operatorRole.any (fun r =>
      ¬ (pyStartsWith r "operator_" ∨ pyStartsWith r "manager_")) then
    (st, .error .invalidRoleFormat)
  else
    match det with
    | none => (st, .error .detectionNotFound)
    | some d =>
      let p : Proposal :=
        { id := nextId
          threat_type := d.threat_type
          confidence := d.confidence
          proposal_type := "manual"
          status := "pending"
          target_ip := d.target_ip
          action_type := "block"
          signatures_required := 2
          signatures_count := 0
          signed_by := []
          reward_paid := false
          reward_recipient := none
          contract_proposal_id := none
          created_at := env.now
          approved_at := none
          executed_at := none
          withdrawn_by := none
          creator_role := operatorRole }
      match operatorRole with
      | some r =>
        if callRaisesTypeError create_multisig_proposal_params manual_proposal_call_kwargs then
          (st, .error .typeError)
        else
          let ms := ms_create_proposal st.contract "manager_0" proposal_reward "0x"
            (some r) env.now
          let p1 := match ms.2 with
            | .ok cid => { p with contract_proposal_id := some cid }
            | .error _ => p
          ({ proposals := st.proposals ++ [p1], contract := ms.1 }, .ok nextId)
      | none =>
        ({ st with proposals := st.proposals ++ [p] }, .ok nextId)

/-! ## Concrete fixtures used by witnesses and counterexamples -/

/-- A freshly initialised contract singleton (no proposals, empty pool,
no contribution history). -/
def emptyContract : ContractState :=
  { proposals := [], proposal_counter := 1, reward_pool_balance := 0,
    contributions := [] }

/-- A pending DB proposal with the given id, threshold, signature list
and creator, with neutral detection fields. -/
def mkPendingProposal (pid required : Nat) (signed : List String)
    (creator : Option String) : Proposal :=
  { id := pid
    threat_type := "DDoS"
    confidence := 85 / 100
    proposal_type := "manual"
    status := "pending"
    target_ip := "10.0.0.7"
    action_type := "block"
    signatures_required := required
    signatures_count := signed.length
    signed_by := signed
    reward_paid := false
    reward_recipient := none
    contract_proposal_id := none
    created_at := 0
    approved_at := none
    executed_at := none
    withdrawn_by := none
    creator_role := creator }

/-- An environment whose chain rejects every transfer. -/
def failingEnv : Env :=
  { now := 100, qualNow := 100, transferOk := fun _ _ _ => false }

/-- An environment whose chain confirms every transfer. -/
def confirmingEnv : Env :=
  { now := 100, qualNow := 100, transferOk := fun _ _ _ => true }

/-- A pending proposal with one existing signature and three required
(Scenario E of the spec). -/
def c2State : SystemState :=
  { proposals := [mkPendingProposal 1 3 ["manager_1"] none],
    contract := emptyContract }

/-- A pending proposal created by `operator_0`. -/
def c3State : SystemState :=
  { proposals := [mkPendingProposal 1 3 [] (some "operator_0")],
    contract := emptyContract }

/-! ## Claim theorems -/

/-- C4 counterexample: the verdict `Benign` with confidence 0.99 gets
response level `automatic_response`, not the `log_only` tier —
`predict_threat` computes the level from the confidence alone. -/
theorem claim_C4_counterexample :
    predict_threat_response_level
      { predicted_class := "Benign", confidence := 99 / 100 }
        = "automatic_response"
  ∧ "automatic_response" ≠ log_only := by
  refine ⟨?_, by simp [log_only]⟩
  norm_num [predict_threat_response_level, determine_response_level,
    high_confidence]

/-- C4 (amended): for a verdict whose predicted class is the benign
class, the response tier is computed from the confidence alone through
the same breakpoints as for threats; it is the `log_only` tier only
when confidence ≤ 0.70, and a confidence above the high breakpoint
yields `automatic_response`. -/
theorem claim_C4_amended (c : ℚ) :
    predict_threat_response_level { predicted_class := "Benign", confidence := c }
      = determine_response_level c
  ∧ (c ≤ medium_low →
      predict_threat_response_level { predicted_class := "Benign", confidence := c }
        = log_only)
  ∧ (c > high_confidence →
      predict_threat_response_level { predicted_class := "Benign", confidence := c }
        = "automatic_response") := by
  refine ⟨rfl, fun hlow => ?_, fun hhigh => ?_⟩
  · have h1 : ¬ c > high_confidence := by
      simp only [high_confidence, medium_low] at *
      intro h; linarith
    have h2 : ¬ c > medium_high := by
      simp only [medium_high, medium_low] at *
      intro h; linarith
    have h3 : ¬ c > medium_low := not_lt.mpr hlow
    simp [predict_threat_response_level, determine_response_level, log_only,
      h1, h2, h3]
  · simp [predict_threat_response_level, determine_response_level, hhigh]

/-- C4 witness: instantiation of `claim_C4_amended` at confidence
0.65 ≤ 0.70. -/
theorem claim_C4_amended_witness :
    (65 / 100 : ℚ) ≤ medium_low
  ∧ predict_threat_response_level
      { predicted_class := "Benign", confidence := 65 / 100 } = log_only :=
  ⟨by norm_num [medium_low], (claim_C4_amended (65 / 100)).2.1 (by norm_num [medium_low])⟩

/-- C7: the tier comparisons of `_determine_response_level` are strict.
For any non-benign class (indeed for any class): confidence above 0.90
gives `automatic_response`, in (0.80, 0.90] gives
`auto_create_proposal`, in (0.70, 0.80] gives `manual_decision_alert`,
at or below 0.70 gives the `log_only` tier; confidence exactly 0.90
falls to `auto_create_proposal`. -/
theorem claim_C7_strict_breakpoints (cls : String) (c : ℚ)
    (_hcls : cls ≠ "Benign") :
    (c > high_confidence →
      predict_threat_response_level { predicted_class := cls, confidence := c }
        = "automatic_response")
  ∧ (c ≤ high_confidence → c > medium_high →
      predict_threat_response_level { predicted_class := cls, confidence := c }
        = "auto_create_proposal")
  ∧ (c ≤ medium_high → c > medium_low →
      predict_threat_response_level { predicted_class := cls, confidence := c }
        = "manual_decision_alert")
  ∧ (c ≤ medium_low →
      predict_threat_response_level { predicted_class := cls, confidence := c }
        = log_only)
  ∧ predict_threat_response_level
      { predicted_class := cls, confidence := high_confidence }
        = "auto_create_proposal" := by
  refine ⟨fun h1 => ?_, fun h1 h2 => ?_, fun h1 h2 => ?_, fun h1 => ?_, ?_⟩
  · simp [predict_threat_response_level, determine_response_level, h1]
  · simp [predict_threat_response_level, determine_response_level,
      not_lt.mpr h1, h2]
  · have h3 : ¬ c > high_confidence := by
      simp only [high_confidence, medium_high] at *
      intro h; linarith
    simp [predict_threat_response_level, determine_response_level,
      h3, not_lt.mpr h1, h2]
  · have h3 : ¬ c > high_confidence := by
      simp only [high_confidence, medium_low] at *
      intro h; linarith
    have h4 : ¬ c > medium_high := by
      simp only [medium_high, medium_low] at *
      intro h; linarith
    simp [predict_threat_response_level, determine_response_level, log_only,
      h3, h4, not_lt.mpr h1]
  · simp [predict_threat_response_level, determine_response_level,
      high_confidence, medium_high]
    norm_num

/-- C7 witness: `DDoS` at confidence 0.75 (Scenario C) lands in
`manual_decision_alert`, via `claim_C7_strict_breakpoints`. -/
theorem claim_C7_strict_breakpoints_witness :
    ("DDoS" : String) ≠ "Benign"
  ∧ (75 / 100 : ℚ) ≤ medium_high ∧ (75 / 100 : ℚ) > medium_low
  ∧ predict_threat_response_level
      { predicted_class := "DDoS", confidence := 75 / 100 }
        = "manual_decision_alert" :=
  ⟨by decide, by norm_num [medium_high], by norm_num [medium_low],
   (claim_C7_strict_breakpoints "DDoS" (75 / 100) (by decide)).2.2.1
     (by norm_num [medium_high]) (by norm_num [medium_low])⟩

/-- C5: evaluation of `_update_contribution` at a repeat signature. The
authorizer `manager_1` last signed at t = 1000 s and signs again at
t = 8200 s (120 minutes later) with a 5-second response time. The
claimed activity ladder would give 60 + 10 = 70 (third conjunct, the
source scoring function applied to the *previous* signature time), but
the stored score is 60 + 40 = 100, because `_update_contribution`
overwrites `last_signature_time` with the current time before invoking
`_calculate_quality_score` on it. -/
theorem claim_C5_code_eval :
    (update_contribution [("manager_1",
        { total_signatures := 3, total_response_time := 20,
          quality_score := 70, last_signature_time := some 1000 })]
      "manager_1" 8195 8200 8200).get "manager_1"
      = some { total_signatures := 4, total_response_time := 25,
               quality_score := 100, last_signature_time := some 8200 }
  ∧ ((8200 : ℚ) - 1000) / 60 > 60
  ∧ calculate_quality_score 5 (some 1000) 8200 = 70 := by
  refine ⟨?_, by norm_num, ?_⟩
  · norm_num [update_contribution, ContribMap.get, ContribMap.set,
      calculate_quality_score, defaultContribution, accountRoles]
  · norm_num [calculate_quality_score]

/-- C2: a Reject call on a pending proposal with one signature of
three required (Scenario E), issued by the authorized signer
`manager_0`, answers HTTP 500 — `class ProposalService` defines no
`reject_proposal` attribute, so the endpoint body raises
`AttributeError` — and the proposal stays `pending`; no input ever
reaches status `rejected`. -/
theorem claim_C2_code_eval :
    reject_proposal_endpoint c2State 1 (some "manager_0")
      = (c2State, .error (.internalError
          "AttributeError: ProposalService has no attribute reject_proposal"))
  ∧ proposalServiceMethods.contains "reject_proposal" = false
  ∧ validManagers.contains "manager_0" = true
  ∧ proposalStatus c2State 1 = some "pending" :=
  ⟨rfl, rfl, rfl, rfl⟩

/-- C3: `withdraw_proposal` lets `operator_1` withdraw the pending
proposal created by `operator_0`: the call succeeds and commits status
`withdrawn` even though the requester is not the creator — the creator
is never consulted, only the `operator_` prefix of the requester. -/
theorem claim_C3_code_eval :
    (withdraw_proposal c3State 1 "operator_1").2 = .ok ()
  ∧ proposalStatus (withdraw_proposal c3State 1 "operator_1").1 1
      = some "withdrawn"
  ∧ (findProposal c3State.proposals 1).map (fun p => p.creator_role)
      = some (some "operator_0")
  ∧ "operator_1" ≠ "operator_0" :=
  ⟨rfl, rfl, rfl, by simp⟩

/-- A pending proposal one signature away from its threshold, not
linked to a contract proposal. -/
def c1State : SystemState :=
  { proposals := [mkPendingProposal 1 1 [] none], contract := emptyContract }

/-- C1 counterexample: signing the last missing signature while the
chain rejects every transfer (`failingEnv`) — the base-reward transfer
to the final signer fails, yet the proposal is committed with status
`approved` (not rolled back to `pending`) and the call reports the
`approved_and_executed` success with `reward_paid = false` instead of
surfacing an error. -/
theorem claim_C1_counterexample :
    (sign_proposal c1State 1 "manager_1" failingEnv).2
      = .ok (.approvedAndExecuted false false)
  ∧ proposalStatus (sign_proposal c1State 1 "manager_1" failingEnv).1 1
      = some "approved"
  ∧ proposalStatus (sign_proposal c1State 1 "manager_1" failingEnv).1 1
      ≠ some "pending"
  ∧ send_reward failingEnv.transferOk "treasury" "manager_1" proposal_reward
      = false := by
  refine ⟨rfl, rfl, ?_, rfl⟩
  have h : proposalStatus (sign_proposal c1State 1 "manager_1" failingEnv).1 1
      = some "approved" := rfl
  rw [h]
  simp

/-- A successful lookup returns a proposal bearing the looked-up id. -/
theorem findProposal_id (ps : List Proposal) (pid : Nat) (p : Proposal)
    (hfind : findProposal ps pid = some p) : p.id = pid := by
  induction ps with
  | nil => simp [findProposal] at hfind
  | cons q t ih =>
    by_cases h : q.id = pid
    · simp only [findProposal, if_pos h] at hfind
      have hq := Option.some.inj hfind
      rw [← hq]
      exact h
    · simp only [findProposal, if_neg h] at hfind
      exact ih hfind

/-- Updating the proposal found under `pid` makes the update visible
to the next lookup. -/
theorem findProposal_set (ps : List Proposal) (pid : Nat) (p p' : Proposal)
    (hfind : findProposal ps pid = some p) (hid : p'.id = pid) :
    findProposal (setProposal ps pid p') pid = some p' := by
  induction ps with
  | nil => simp [findProposal] at hfind
  | cons q t ih =>
    by_cases h : q.id = pid
    · simp [findProposal, setProposal, h, hid]
    · simp only [findProposal, setProposal, List.map_cons, if_neg h] at hfind ⊢
      exact ih hfind

/-- C1 (amended): when the threshold-crossing signature's base-reward
transfer fails, the just-added signature is retained but the proposal
is *not* rolled back to `pending` — it is committed with status
`approved` (`approved_at`/`executed_at` set) and `reward_paid = false`,
and the call still reports the `approved_and_executed` success instead
of surfacing the failure. (Stated for proposals not linked to a
contract proposal, the only kind the creation paths can commit.) -/
theorem claim_C1_amended (st : SystemState) (pid : Nat) (r : String)
    (env : Env) (p : Proposal)
    (hfind : findProposal st.proposals pid = some p)
    (hpend : p.status = "pending")
    (hnew : r ∉ p.signed_by)
    (hleg : p.contract_proposal_id = none)
    (hth : p.signed_by.length + 1 ≥ p.signatures_required)
    (hfail : send_reward env.transferOk "treasury" r proposal_reward = false) :
    ∃ b, (sign_proposal st pid r env).2 = .ok (.approvedAndExecuted false b)
  ∧ proposalStatus (sign_proposal st pid r env).1 pid = some "approved"
  ∧ proposalSignedBy (sign_proposal st pid r env).1 pid
      = some (p.signed_by ++ [r])
  ∧ ((findProposal (sign_proposal st pid r env).1.proposals pid).map
      (fun q => q.reward_paid)) = some false := by
  have hpid : p.id = pid := findProposal_id st.proposals pid p hfind
  have h1 : ¬ (p.status ≠ "pending") := by simp [hpend]
  have hth1 : (p.signed_by ++ [r]).length ≥ p.signatures_required := by
    simpa using hth
  simp only [sign_proposal, hfind, h1, if_false, hnew, hleg, sign_append,
    execute_approved_proposal, hfail, if_true, if_neg, not_false_iff,
    ite_false, ite_true, if_pos hth1]
  refine ⟨_, rfl, ?_, ?_, ?_⟩
  · simp only [proposalStatus, Option.map_eq_some']
    exact ⟨_, findProposal_set _ _ _ _ hfind hpid, rfl⟩
  · simp only [proposalSignedBy, Option.map_eq_some']
    exact ⟨_, findProposal_set _ _ _ _ hfind hpid, rfl⟩
  · simp only [Option.map_eq_some']
    exact ⟨_, findProposal_set _ _ _ _ hfind hpid, rfl⟩

/-- C1 witness: `claim_C1_amended` instantiated at the concrete
one-signature-required pending proposal of `c1State` with the
always-failing chain. -/
theorem claim_C1_amended_witness :
    findProposal c1State.proposals 1 = some (mkPendingProposal 1 1 [] none)
  ∧ (mkPendingProposal 1 1 [] none).status = "pending"
  ∧ send_reward failingEnv.transferOk "treasury" "manager_1" proposal_reward
      = false
  ∧ (∃ b, (sign_proposal c1State 1 "manager_1" failingEnv).2
        = .ok (.approvedAndExecuted false b)
      ∧ proposalStatus (sign_proposal c1State 1 "manager_1" failingEnv).1 1
          = some "approved"
      ∧ proposalSignedBy (sign_proposal c1State 1 "manager_1" failingEnv).1 1
          = some ((mkPendingProposal 1 1 [] none).signed_by ++ ["manager_1"])
      ∧ ((findProposal (sign_proposal c1State 1 "manager_1" failingEnv).1.proposals 1).map
          (fun q => q.reward_paid)) = some false) :=
  ⟨rfl, rfl, rfl,
   claim_C1_amended c1State 1 "manager_1" failingEnv
     (mkPendingProposal 1 1 [] none) rfl rfl (by simp [mkPendingProposal])
     rfl (by simp [mkPendingProposal]) rfl⟩

/-- C8: a Sign call by an authorizer already present in the proposal's
signature list fails with an error — `alreadySigned` when the proposal
is still pending, `statusNotPending` otherwise — and returns the whole
system state (proposals, contract proposals, contributions, pool)
exactly as it was; nothing is appended or recorded. -/
theorem claim_C8_duplicate_sign (st : SystemState) (pid : Nat)
    (r : String) (env : Env) (p : Proposal)
    (hfind : findProposal st.proposals pid = some p)
    (hdup : r ∈ p.signed_by) :
    ∃ e, sign_proposal st pid r env = (st, .error e)
  ∧ (p.status = "pending" → e = SignError.alreadySigned) := by
  by_cases hp : p.status = "pending"
  · have h1 : ¬ (p.status ≠ "pending") := by simp [hp]
    refine ⟨.alreadySigned, ?_, fun _ => rfl⟩
    simp [sign_proposal, hfind, h1, hdup]
  · refine ⟨.statusNotPending p.status, ?_, fun hc => absurd hc hp⟩
    simp [sign_proposal, hfind, hp]

/-- C8 witness: `claim_C8_duplicate_sign` at the pending proposal of
`c2State`, which `manager_1` has already signed. -/
theorem claim_C8_duplicate_sign_witness :
    findProposal c2State.proposals 1 = some (mkPendingProposal 1 3 ["manager_1"] none)
  ∧ "manager_1" ∈ (mkPendingProposal 1 3 ["manager_1"] none).signed_by
  ∧ (∃ e, sign_proposal c2State 1 "manager_1" confirmingEnv
        = (c2State, .error e)
      ∧ ((mkPendingProposal 1 3 ["manager_1"] none).status = "pending" →
          e = SignError.alreadySigned)) :=
  ⟨rfl, by simp [mkPendingProposal],
   claim_C8_duplicate_sign c2State 1 "manager_1" confirmingEnv
     (mkPendingProposal 1 3 ["manager_1"] none) rfl
     (by simp [mkPendingProposal])⟩

/-- C10: both proposal-creation paths that reach the multisig contract
layer pass the `creator_role` keyword that
`Web3Manager.create_multisig_proposal` does not accept, so the call
raises `TypeError`, the surrounding transaction rolls back (the
returned state is the input state), and no proposal is committed
through the contract path. -/
theorem claim_C10_creator_role_type_error (st : SystemState)
    (det : DetectionInfo) (nextId : Nat) (env : Env) (r : String)
    (hr : pyStartsWith r "operator_" = true ∨ pyStartsWith r "manager_" = true) :
    create_auto_proposal st det nextId env = (st, .error .typeError)
  ∧ create_manual_proposal st (some det) (some r) nextId env
      = (st, .error .typeError)
  ∧ callRaisesTypeError create_multisig_proposal_params auto_proposal_call_kwargs
      = true
  ∧ callRaisesTypeError create_multisig_proposal_params manual_proposal_call_kwargs
      = true
  ∧ "creator_role" ∈ auto_proposal_call_kwargs
  ∧ "creator_role" ∉ create_multisig_proposal_params := by
  have hA : callRaisesTypeError create_multisig_proposal_params
      auto_proposal_call_kwargs = true := rfl
  have hM : callRaisesTypeError create_multisig_proposal_params
      manual_proposal_call_kwargs = true := rfl
  refine ⟨?_, ?_, hA, hM, by simp [auto_proposal_call_kwargs],
    by simp [create_multisig_proposal_params]⟩
  · simp [create_auto_proposal, hA]
  · rcases hr with h | h <;> simp [create_manual_proposal, h, hM]

/-- C10 witness: `claim_C10_creator_role_type_error` at a concrete
detection and the operator role `operator_1`. -/
theorem claim_C10_creator_role_type_error_witness :
    (pyStartsWith "operator_1" "operator_" = true
      ∨ pyStartsWith "operator_1" "manager_" = true)
  ∧ create_auto_proposal { proposals := [], contract := emptyContract }
      { threat_type := "DDoS", confidence := 85 / 100, target_ip := "10.0.0.7" }
      1 confirmingEnv
      = ({ proposals := [], contract := emptyContract }, .error .typeError)
  ∧ create_manual_proposal { proposals := [], contract := emptyContract }
      (some { threat_type := "DDoS", confidence := 85 / 100, target_ip := "10.0.0.7" })
      (some "operator_1") 1 confirmingEnv
      = ({ proposals := [], contract := emptyContract }, .error .typeError) :=
  ⟨Or.inl rfl,
   (claim_C10_creator_role_type_error _ _ 1 confirmingEnv "operator_1"
     (Or.inl rfl)).1,
   (claim_C10_creator_role_type_error _ _ 1 confirmingEnv "operator_1"
     (Or.inl rfl)).2.1⟩

/-- The decision the contract distribution loop takes for one manager,
depending only on that manager's own score and transfer outcome: pay
`available * score / total` iff the score is positive, the amount
exceeds the 0.001 minimum and the transfer confirms. -/
def contractDistDecision (available total : ℚ) (transferOk : TransferOracle)
    (p : String × ℚ) : Option DistEntry :=
  if p.2 > 0 then
    if available * p.2 / total > 1 / 1000 then
      if send_reward transferOk "treasury" p.1 (available * p.2 / total) then
        some { manager_role := p.1
               reward_amount := available * p.2 / total
               contribution_score := p.2 }
      else none
    else none
  else none

/-- The contract distribution loop pays each manager according to its
own `contractDistDecision` — one manager's failure affects neither the
others' payouts nor the pool debit — and debits the running balance by
exactly the sum of the paid amounts. -/
theorem contractDistLoop_cons (available total : ℚ) (ok : TransferOracle)
    (p : String × ℚ) (t : List (String × ℚ)) (bal : ℚ) :
    contractDistLoop available total ok (p :: t) bal
      = match contractDistDecision available total ok p with
        | some e =>
          ((contractDistLoop available total ok t (bal - e.reward_amount)).1,
           e :: (contractDistLoop available total ok t (bal - e.reward_amount)).2)
        | none => contractDistLoop available total ok t bal := by
  simp only [contractDistLoop, contractDistDecision]
  split_ifs <;> simp

theorem contractDistLoop_eq (available total : ℚ) (ok : TransferOracle)
    (l : List (String × ℚ)) (bal : ℚ) :
    contractDistLoop available total ok l bal
      = (bal - (((l.filterMap (contractDistDecision available total ok)).map
            (fun d => d.reward_amount)).sum),
         l.filterMap (contractDistDecision available total ok)) := by
  induction l generalizing bal with
  | nil => simp [contractDistLoop]
  | cons p t ih =>
    rw [contractDistLoop_cons, List.filterMap_cons]
    cases hD : contractDistDecision available total ok p with
    | none => simp [ih]
    | some e => simp [ih, sub_sub]

/-- The decision the auto-distribution loop takes for one manager. -/
def autoDistDecision (total : ℚ) (transferOk : TransferOracle)
    (p : String × ℚ) : Option DistEntry :=
  if p.2 / total * 1 > 1 / 1000 then
    if send_reward transferOk "treasury" p.1 (p.2 / total * 1) then
      some { manager_role := p.1
             reward_amount := p.2 / total * 1
             contribution_score := p.2 }
    else none
  else none

/-- The auto-distribution loop pays each eligible manager according to
its own `autoDistDecision`, independently of the other transfers. -/
theorem autoDistLoop_cons (total : ℚ) (ok : TransferOracle)
    (p : String × ℚ) (t : List (String × ℚ)) :
    autoDistLoop total ok (p :: t)
      = match autoDistDecision total ok p with
        | some e => e :: autoDistLoop total ok t
        | none => autoDistLoop total ok t := by
  simp only [autoDistLoop, autoDistDecision]
  split_ifs <;> simp

theorem autoDistLoop_eq (total : ℚ) (ok : TransferOracle)
    (l : List (String × ℚ)) :
    autoDistLoop total ok l = l.filterMap (autoDistDecision total ok) := by
  induction l with
  | nil => simp [autoDistLoop]
  | cons p t ih =>
    rw [autoDistLoop_cons, List.filterMap_cons]
    cases hD : autoDistDecision total ok p with
    | none => simp [ih]
    | some e => simp [ih]

/-- What a positive contract-loop decision guarantees about the
produced entry. -/
theorem contractDistDecision_some (available total : ℚ)
    (ok : TransferOracle) (p : String × ℚ) (e : DistEntry)
    (h : contractDistDecision available total ok p = some e) :
    e.manager_role = p.1
  ∧ e.contribution_score = p.2
  ∧ e.reward_amount = available * e.contribution_score / total
  ∧ e.reward_amount > 1 / 1000
  ∧ send_reward ok "treasury" e.manager_role e.reward_amount = true := by
  unfold contractDistDecision at h
  by_cases h1 : p.2 > 0
  · rw [if_pos h1] at h
    by_cases h2 : available * p.2 / total > 1 / 1000
    · rw [if_pos h2] at h
      by_cases h3 : send_reward ok "treasury" p.1 (available * p.2 / total) = true
      · rw [if_pos h3] at h
        cases h
        exact ⟨rfl, rfl, rfl, h2, h3⟩
      · rw [if_neg h3] at h
        exact Option.noConfusion h
    · rw [if_neg h2] at h
      exact Option.noConfusion h
  · rw [if_neg h1] at h
    exact Option.noConfusion h

/-- What a positive auto-loop decision guarantees about the produced
entry. -/
theorem autoDistDecision_some (total : ℚ) (ok : TransferOracle)
    (p : String × ℚ) (e : DistEntry)
    (h : autoDistDecision total ok p = some e) :
    e.manager_role = p.1
  ∧ e.contribution_score = p.2
  ∧ e.reward_amount = e.contribution_score / total * 1
  ∧ e.reward_amount > 1 / 1000
  ∧ send_reward ok "treasury" e.manager_role e.reward_amount = true := by
  unfold autoDistDecision at h
  by_cases h2 : p.2 / total * 1 > 1 / 1000
  · rw [if_pos h2] at h
    by_cases h3 : send_reward ok "treasury" p.1 (p.2 / total * 1) = true
    · rw [if_pos h3] at h
      cases h
      exact ⟨rfl, rfl, rfl, h2, h3⟩
    · rw [if_neg h3] at h
      exact Option.noConfusion h
  · rw [if_neg h2] at h
    exact Option.noConfusion h

/-- C9: in both distribution runs (the admin-triggered
`distribute_contribution_rewards` and the execution-triggered
`_auto_distribute_on_execution`) the pool balance after the run equals
the balance before minus the sum of the individual transfer amounts
that succeeded (the collected `distributions`); every collected entry
is a confirmed transfer, and in the distributing branch each manager's
entry is its own pointwise decision over the pre-computed score list —
so a failed transfer debits nothing and does not prevent the remaining
transfers from being attempted. -/
theorem claim_C9_pool_accounting (cst : ContractState) (ok : TransferOracle) :
    ((distribute_contribution_rewards cst ok).1.reward_pool_balance
      = cst.reward_pool_balance
        - (((distribute_contribution_rewards cst ok).2.distributions.map
            (fun d => d.reward_amount)).sum))
  ∧ (∀ e ∈ (distribute_contribution_rewards cst ok).2.distributions,
       send_reward ok "treasury" e.manager_role e.reward_amount = true)
  ∧ (¬ cst.reward_pool_balance ≤ 1 / 10 →
      ((contract_manager_scores cst.contributions validManagers).map Prod.snd).sum ≠ 0 →
      (distribute_contribution_rewards cst ok).2.distributions
        = (contract_manager_scores cst.contributions validManagers).filterMap
            (contractDistDecision (max 0 (cst.reward_pool_balance - 1 / 10))
              (((contract_manager_scores cst.contributions validManagers).map
                Prod.snd).sum) ok))
  ∧ ((auto_distribute_on_execution cst ok).1.reward_pool_balance
      = cst.reward_pool_balance
        - (((auto_distribute_on_execution cst ok).2.distributions.map
            (fun d => d.reward_amount)).sum))
  ∧ (∀ e ∈ (auto_distribute_on_execution cst ok).2.distributions,
       send_reward ok "treasury" e.manager_role e.reward_amount = true)
  ∧ (((auto_eligible_managers cst.contributions validManagers).map Prod.snd).sum ≠ 0 →
      ¬ cst.reward_pool_balance < 1 →
      (auto_distribute_on_execution cst ok).2.distributions
        = (auto_eligible_managers cst.contributions validManagers).filterMap
            (autoDistDecision
              (((auto_eligible_managers cst.contributions validManagers).map
                Prod.snd).sum) ok)) := by
  refine ⟨?_, ?_, ?_, ?_, ?_, ?_⟩
  · simp only [distribute_contribution_rewards]
    split_ifs <;> simp [contractDistLoop_eq]
  · intro e he
    simp only [distribute_contribution_rewards] at he
    split_ifs at he
    · simp at he
    · simp at he
    · simp only [contractDistLoop_eq] at he
      rw [List.mem_filterMap] at he
      obtain ⟨p, -, hp⟩ := he
      exact (contractDistDecision_some _ _ _ _ _ hp).2.2.2.2
  · intro hb ht
    simp only [distribute_contribution_rewards]
    rw [if_neg hb, if_neg ht]
    simp [contractDistLoop_eq]
  · simp only [auto_distribute_on_execution]
    split_ifs <;> simp [autoDistLoop_eq]
  · intro e he
    simp only [auto_distribute_on_execution] at he
    split_ifs at he
    · simp at he
    · simp at he
    · simp only [autoDistLoop_eq] at he
      rw [List.mem_filterMap] at he
      obtain ⟨p, -, hp⟩ := he
      exact (autoDistDecision_some _ _ _ _ hp).2.2.2.2
  · intro ht hb
    simp only [auto_distribute_on_execution]
    rw [if_neg ht, if_neg hb]
    simp [autoDistLoop_eq]

/-- A contract state with a funded pool and two contributing managers:
`manager_0` with one signature of quality 100, `manager_1` with ten
signatures of quality 0. -/
def distFixture : ContractState :=
  { proposals := []
    proposal_counter := 1
    reward_pool_balance := 121 / 10
    contributions :=
      [("manager_0", { total_signatures := 1, total_response_time := 5,
                       quality_score := 100, last_signature_time := some 0 }),
       ("manager_1", { total_signatures := 10, total_response_time := 50,
                       quality_score := 0, last_signature_time := some 0 })] }

/-- A chain that confirms every transfer. -/
def allOk : TransferOracle := fun _ _ _ => true

theorem distFixture_scores :
    contract_manager_scores distFixture.contributions validManagers
      = [("manager_0", 2), ("manager_1", 10)] := by
  have hg0 : ContribMap.get distFixture.contributions "manager_0"
      = some { total_signatures := 1, total_response_time := 5,
               quality_score := 100, last_signature_time := some 0 } := rfl
  have hg1 : ContribMap.get distFixture.contributions "manager_1"
      = some { total_signatures := 10, total_response_time := 50,
               quality_score := 0, last_signature_time := some 0 } := rfl
  have hg2 : ContribMap.get distFixture.contributions "manager_2" = none := rfl
  simp only [contract_manager_scores, validManagers, hg0, hg1, hg2,
    contractScoreEntry]
  norm_num

theorem distFixture_total :
    ((contract_manager_scores distFixture.contributions validManagers).map
      Prod.snd).sum = 12 := by
  rw [distFixture_scores]
  norm_num

theorem distFixture_distributions :
    (distribute_contribution_rewards distFixture allOk).2.distributions
      = [{ manager_role := "manager_0", reward_amount := 2,
           contribution_score := 2 },
         { manager_role := "manager_1", reward_amount := 10,
           contribution_score := 10 }] := by
  have hb : ¬ distFixture.reward_pool_balance ≤ 1 / 10 := by
    norm_num [distFixture]
  have ht : ((contract_manager_scores distFixture.contributions validManagers).map
      Prod.snd).sum ≠ 0 := by
    rw [distFixture_total]
    norm_num
  have hd0 : contractDistDecision 12 12 allOk ("manager_0", 2)
      = some { manager_role := "manager_0", reward_amount := 2,
               contribution_score := 2 } := by
    norm_num [contractDistDecision, send_reward, allOk, accountRoles]
  have hd1 : contractDistDecision 12 12 allOk ("manager_1", 10)
      = some { manager_role := "manager_1", reward_amount := 10,
               contribution_score := 10 } := by
    norm_num [contractDistDecision, send_reward, allOk, accountRoles]
  have havail : max 0 (distFixture.reward_pool_balance - 1 / 10) = (12 : ℚ) := by
    norm_num [distFixture]
  have hsum : ((([("manager_0", (2 : ℚ)), ("manager_1", 10)] :
      List (String × ℚ)).map Prod.snd).sum) = 12 := by
    norm_num
  simp only [distribute_contribution_rewards]
  rw [if_neg hb, if_neg ht]
  simp only [contractDistLoop_eq, distFixture_scores, hsum, havail,
    List.filterMap_cons, hd0, hd1, List.filterMap_nil]

theorem distFixture_auto_eligible :
    auto_eligible_managers distFixture.contributions validManagers
      = [("manager_0", 55), ("manager_1", 50)] := by
  have hg0 : ContribMap.get distFixture.contributions "manager_0"
      = some { total_signatures := 1, total_response_time := 5,
               quality_score := 100, last_signature_time := some 0 } := rfl
  have hg1 : ContribMap.get distFixture.contributions "manager_1"
      = some { total_signatures := 10, total_response_time := 50,
               quality_score := 0, last_signature_time := some 0 } := rfl
  have hg2 : ContribMap.get distFixture.contributions "manager_2" = none := rfl
  simp only [auto_eligible_managers, validManagers, hg0, hg1, hg2,
    Option.getD_some, Option.getD_none]
  norm_num [calculate_contribution_score, defaultContribution]

theorem distFixture_auto_total :
    ((auto_eligible_managers distFixture.contributions validManagers).map
      Prod.snd).sum = 105 := by
  rw [distFixture_auto_eligible]
  norm_num

/-- C9 witness: `claim_C9_pool_accounting` at `distFixture` with an
all-confirming chain, with both distributing-branch hypotheses
discharged. -/
theorem claim_C9_pool_accounting_witness :
    (¬ distFixture.reward_pool_balance ≤ 1 / 10)
  ∧ ((contract_manager_scores distFixture.contributions validManagers).map
      Prod.snd).sum ≠ 0
  ∧ ((auto_eligible_managers distFixture.contributions validManagers).map
      Prod.snd).sum ≠ 0
  ∧ (¬ distFixture.reward_pool_balance < 1)
  ∧ (distribute_contribution_rewards distFixture allOk).1.reward_pool_balance
      = distFixture.reward_pool_balance
        - (((distribute_contribution_rewards distFixture allOk).2.distributions.map
            (fun d => d.reward_amount)).sum)
  ∧ (distribute_contribution_rewards distFixture allOk).2.distributions
      = (contract_manager_scores distFixture.contributions validManagers).filterMap
          (contractDistDecision (max 0 (distFixture.reward_pool_balance - 1 / 10))
            (((contract_manager_scores distFixture.contributions validManagers).map
              Prod.snd).sum) allOk)
  ∧ (auto_distribute_on_execution distFixture allOk).2.distributions
      = (auto_eligible_managers distFixture.contributions validManagers).filterMap
          (autoDistDecision
            (((auto_eligible_managers distFixture.contributions validManagers).map
              Prod.snd).sum) allOk) :=
  ⟨by norm_num [distFixture],
   by rw [distFixture_total]; norm_num,
   by rw [distFixture_auto_total]; norm_num,
   by norm_num [distFixture],
   (claim_C9_pool_accounting distFixture allOk).1,
   (claim_C9_pool_accounting distFixture allOk).2.2.1
     (by norm_num [distFixture]) (by rw [distFixture_total]; norm_num),
   (claim_C9_pool_accounting distFixture allOk).2.2.2.2.2
     (by rw [distFixture_auto_total]; norm_num) (by norm_num [distFixture])⟩

/-- C6 counterexample: over `distFixture` the admin-triggered
distribution pays `manager_0` exactly 2 ETH — computed from the score
`total_signatures + quality_score / 100 = 2` — whereas the claimed
formula `disbursement * ContributionScore / totalScore` with
`ContributionScore = min(100, signatures * 10) * 0.5 + quality * 0.5`
would pay `12 * 55 / (55 + 50) = 44/7 ≠ 2`. -/
theorem claim_C6_counterexample :
    (distribute_contribution_rewards distFixture allOk).2.distributions
      = [{ manager_role := "manager_0", reward_amount := 2,
           contribution_score := 2 },
         { manager_role := "manager_1", reward_amount := 10,
           contribution_score := 10 }]
  ∧ calculate_contribution_score 1 100 = 55
  ∧ calculate_contribution_score 10 0 = 50
  ∧ max 0 (distFixture.reward_pool_balance - 1 / 10)
      * calculate_contribution_score 1 100
      / (calculate_contribution_score 1 100 + calculate_contribution_score 10 0)
      = 44 / 7
  ∧ (2 : ℚ) ≠ 44 / 7 :=
  ⟨distFixture_distributions,
   by norm_num [calculate_contribution_score],
   by norm_num [calculate_contribution_score],
   by norm_num [calculate_contribution_score, distFixture],
   by norm_num⟩

/-- Every entry of the auto-eligibility list comes from a record with
at least one signature and carries `_calculate_contribution_score` of
that record. -/
theorem auto_eligible_mem (contribs : ContribMap) (roles : List String)
    (r : String) (s : ℚ)
    (h : (r, s) ∈ auto_eligible_managers contribs roles) :
    ((ContribMap.get contribs r).getD defaultContribution).total_signatures > 0
  ∧ s = calculate_contribution_score
      ((ContribMap.get contribs r).getD defaultContribution).total_signatures
      ((ContribMap.get contribs r).getD defaultContribution).quality_score := by
  induction roles with
  | nil => simp [auto_eligible_managers] at h
  | cons q t ih =>
    simp only [auto_eligible_managers] at h
    by_cases hc : ((ContribMap.get contribs q).getD defaultContribution).total_signatures > 0
    · rw [if_pos hc] at h
      rcases List.mem_cons.mp h with he | ht2
      · obtain ⟨h1, h2⟩ := Prod.mk.inj he
        rw [h1]
        exact ⟨hc, h2⟩
      · exact ih ht2
    · rw [if_neg hc] at h
      exact ih h

/-- Every entry of the contract score list comes from a present
contribution record and carries the score
`total_signatures + quality_score / 100`. -/
theorem contract_scores_mem (contribs : ContribMap) (roles : List String)
    (r : String) (s : ℚ)
    (h : (r, s) ∈ contract_manager_scores contribs roles) :
    ∃ c, ContribMap.get contribs r = some c
  ∧ s = (c.total_signatures : ℚ) + (c.quality_score : ℚ) / 100 := by
  induction roles with
  | nil => simp [contract_manager_scores] at h
  | cons q t ih =>
    simp only [contract_manager_scores] at h
    rcases List.mem_append.mp h with h1 | h2
    · cases hg : ContribMap.get contribs q with
      | none =>
        rw [hg] at h1
        simp [contractScoreEntry] at h1
      | some c =>
        rw [hg] at h1
        simp only [contractScoreEntry, List.mem_singleton] at h1
        obtain ⟨hr, hs⟩ := Prod.mk.inj h1
        rw [hr]
        exact ⟨c, hg, hs⟩
    · exact ih h2

/-- C6 (amended): in both distribution runs each paid entry is
proportional, `reward = disbursement * score / totalScore`, and amounts
not above the 0.001 minimum are never paid — but the two runs use
different scores. The execution-triggered auto run (disbursement 1 ETH)
uses the claimed `ContributionScore`
`min(100, signatures * 10) * 0.5 + quality * 0.5`; the admin-triggered
contract run (disbursement `max 0 (balance - 0.1)`) instead uses
`total_signatures + quality_score / 100`. -/
theorem claim_C6_amended (cst : ContractState) (ok : TransferOracle) :
    (∀ e ∈ (auto_distribute_on_execution cst ok).2.distributions,
        ((ContribMap.get cst.contributions e.manager_role).getD
          defaultContribution).total_signatures > 0
      ∧ e.contribution_score = calculate_contribution_score
          ((ContribMap.get cst.contributions e.manager_role).getD
            defaultContribution).total_signatures
          ((ContribMap.get cst.contributions e.manager_role).getD
            defaultContribution).quality_score
      ∧ e.reward_amount = e.contribution_score
          / (((auto_eligible_managers cst.contributions validManagers).map
              Prod.snd).sum) * 1
      ∧ e.reward_amount > 1 / 1000)
  ∧ (∀ e ∈ (distribute_contribution_rewards cst ok).2.distributions,
        (∃ c, ContribMap.get cst.contributions e.manager_role = some c
          ∧ e.contribution_score
              = (c.total_signatures : ℚ) + (c.quality_score : ℚ) / 100)
      ∧ e.reward_amount = max 0 (cst.reward_pool_balance - 1 / 10)
          * e.contribution_score
          / (((contract_manager_scores cst.contributions validManagers).map
              Prod.snd).sum)
      ∧ e.reward_amount > 1 / 1000) := by
  constructor
  · intro e he
    simp only [auto_distribute_on_execution] at he
    split_ifs at he
    · simp at he
    · simp at he
    · simp only [autoDistLoop_eq] at he
      rw [List.mem_filterMap] at he
      obtain ⟨p, hpmem, hp⟩ := he
      obtain ⟨hrole, hscore, hamount, hmin, -⟩ := autoDistDecision_some _ _ _ _ hp
      have hel := auto_eligible_mem cst.contributions validManagers p.1 p.2 hpmem
      refine ⟨?_, ?_, ?_, hmin⟩
      · rw [hrole]
        exact hel.1
      · rw [hrole, hscore]
        exact hel.2
      · rw [hscore] at hamount ⊢
        exact hamount
  · intro e he
    simp only [distribute_contribution_rewards] at he
    split_ifs at he
    · simp at he
    · simp at he
    · simp only [contractDistLoop_eq] at he
      rw [List.mem_filterMap] at he
      obtain ⟨p, hpmem, hp⟩ := he
      obtain ⟨hrole, hscore, hamount, hmin, -⟩ :=
        contractDistDecision_some _ _ _ _ _ hp
      obtain ⟨c, hc, hcs⟩ :=
        contract_scores_mem cst.contributions validManagers p.1 p.2 hpmem
      refine ⟨⟨c, ?_, ?_⟩, ?_, hmin⟩
      · rw [hrole]
        exact hc
      · rw [hscore]
        exact hcs
      · rw [hscore] at hamount ⊢
        exact hamount

/-- The 2-ETH entry the contract run pays to `manager_0` over
`distFixture`. -/
def c6Entry : DistEntry :=
  { manager_role := "manager_0", reward_amount := 2, contribution_score := 2 }

/-- C6 amended witness: `claim_C6_amended` at `distFixture`, checked on
the concrete entry paid to `manager_0` by the contract run. -/
theorem claim_C6_amended_witness :
    c6Entry ∈ (distribute_contribution_rewards distFixture allOk).2.distributions
  ∧ ((∃ c, ContribMap.get distFixture.contributions c6Entry.manager_role = some c
      ∧ c6Entry.contribution_score
          = (c.total_signatures : ℚ) + (c.quality_score : ℚ) / 100)
    ∧ c6Entry.reward_amount
        = max 0 (distFixture.reward_pool_balance - 1 / 10)
          * c6Entry.contribution_score
          / (((contract_manager_scores distFixture.contributions validManagers).map
              Prod.snd).sum)
    ∧ c6Entry.reward_amount > 1 / 1000) := by
  have hmem : c6Entry
      ∈ (distribute_contribution_rewards distFixture allOk).2.distributions := by
    rw [distFixture_distributions]
    simp [c6Entry]
  exact ⟨hmem, (claim_C6_amended distFixture allOk).2 c6Entry hmem⟩

end BCFW
